import Mathlib

/-!
Verification of the dj_palette component template engine
(src/dj_palette/templatetags/palette_v2.py, the stack-based implementation,
and src/dj_palette/templatetags/palette.py, the map-based implementation).

The embedding models the template node tree (PNode), the per-render
block/override stacks (PaletteBlockContext), the render-scoped registry, the
component lookup strategies, the extends-chain merge, and the two renderers.
Rendering is a fueled interpreter that is structurally recursive on the fuel,
so that concrete runs evaluate inside the kernel; fuel exhaustion models
Python's RecursionError.
-/

namespace Palette

/-- Association list lookup (Python dict .get). Keys are unique per list. -/
def lookupA {α : Type} (l : List (String × α)) (k : String) : Option α :=
  match l with
  | [] => none
  | (k', v) :: rest => if k' = k then some v else lookupA rest k

/-- Association list insert-or-replace (Python dict assignment d[k] = v):
replaces in place when the key exists, otherwise appends (dicts preserve
insertion order). -/
def insertA {α : Type} (l : List (String × α)) (k : String) (v : α) :
    List (String × α) :=
  match l with
  | [] => [(k, v)]
  | (k', v') :: rest =>
      if k' = k then (k, v) :: rest else (k', v') :: insertA rest k v

/-- Remove a key from an association list (Python del d[k], restricted to the
single dict it is applied to). -/
def removeA {α : Type} (l : List (String × α)) (k : String) :
    List (String × α) :=
  match l with
  | [] => []
  | (k', v') :: rest => if k' = k then rest else (k', v') :: removeA rest k

/-- os.path.basename: the part of a path after the last slash. -/
def basename (s : String) : String :=
  String.mk ((s.data.reverse.takeWhile (fun c => c ≠ '/')).reverse)

/-- Display of an optional string the way a Python f-string prints it
(None prints as "None"). -/
def disp (o : Option String) : String :=
  match o with
  | none => "None"
  | some s => s

/-- A compiled expression attached to a tag argument (Django
FilterExpression).  Evaluation of a variable path against a context is a
consumed capability of the host templating system (spec section 6): it
fails with an Unresolvable error when the referenced path is absent.
The failing constructor stands for an expression whose resolution raises. -/
inductive FilterExpr where
  | lit (s : String)
  | var (path : String)
  | failing (msg : String)
deriving Repr

/-- The typed prop value variants built by palette.py's do_palette_ui parser
from _parse_quoted_value: ("literal", s), ("expression", compiled), and
("tag", raw). -/
inductive PropSpec where
  | lit (s : String)
  | expr (e : FilterExpr)
  | tag (s : String)
deriving Repr

/-- The file= argument of palette_ui: either a literal string or a compiled
FilterExpression (palette_v2.py PaletteUIRenderNode.file_token and
palette.py reserved["file"]). -/
inductive TokOrExpr where
  | litTok (s : String)
  | exprTok (e : FilterExpr)
deriving Repr

/-- Template nodes relevant to the palette engine.  In Django, rendering
dispatches on the node's class, and the two tag libraries register distinct
classes under the same tag names, so nodes built by palette_v2.py
(paletteBlock, componentDef, extendsMarker, paletteUI) and nodes built by
palette.py (paletteBlockV1, componentDefV1, paletteUIV1) are distinct
constructors.  text covers literal output (and any node whose render just
returns a string); raiseNode models a node whose render raises; blockSuper
is a variable node referencing block.super; overrideDecl renders empty in
both libraries.  componentDefV1 carries the file key recorded by
palette.py's parser from parser.origin.  paletteUI's component name is a
plain string because palette_v2's parser stores the raw token. -/
inductive PNode where
  | text (s : String)
  | raiseNode (msg : String)
  | blockSuper
  | paletteBlock (name : String) (body : List PNode)
  | paletteBlockV1 (name : String) (body : List PNode)
  | componentDef (name : String) (body : List PNode)
  | componentDefV1 (fileKey : String) (name : String) (body : List PNode)
  | extendsMarker (parent : String)
  | overrideDecl (name : String) (body : List PNode)
  | paletteUI (fileTok : TokOrExpr) (comp : String)
      (withVars : List (String × FilterExpr)) (inner : List PNode)
  | paletteUIV1 (fileTok : TokOrExpr) (compTok : TokOrExpr)
      (props : List (String × PropSpec)) (inner : List PNode)
deriving Repr

/-- The component registry: template identity -> component name -> body
(palette_v2 render_context["palette_registry"], palette.py
render_context["PALETTE_COMPONENTS"]). -/
abbrev Registry := List (String × List (String × List PNode))

/-- Registry lookup across both levels: registry.get(tpl, {}).get(comp). -/
def lookupReg (reg : Registry) (tpl comp : String) : Option (List PNode) :=
  match lookupA reg tpl with
  | none => none
  | some comps => lookupA comps comp

/-- Registry registration: registry.setdefault(tpl, {})[comp] = body. -/
def registerReg (reg : Registry) (tpl comp : String) (body : List PNode) :
    Registry :=
  match lookupA reg tpl with
  | none => reg ++ [(tpl, [(comp, body)])]
  | some comps => insertA reg tpl (insertA comps comp body)

/-- Template variable values: strings, Python None, the v2 _BlockSuper
handle (stack of block bodies plus current index), the v1 _Block handle
(pre-rendered original content), and the registry debug value exposed as
PALETTE_COMPONENTS. -/
inductive Value where
  | str (s : String)
  | vnone
  | blockHandle (stack : List (List PNode)) (index : Nat)
  | blockStr (s : String)
  | vregistry (r : Registry)

/-- PaletteBlockContext (palette_v2.py): per block name, an ordered stack of
block bodies, topmost (highest precedence) first. -/
structure PaletteBlockContext where
  blocks : List (String × List (List PNode))

/-- PaletteBlockContext.add_block: push a body onto the front (prepend) or
the back (append) of the named stack. -/
def PaletteBlockContext.add_block (c : PaletteBlockContext) (name : String)
    (body : List PNode) (prepend : Bool) : PaletteBlockContext :=
  match lookupA c.blocks name with
  | none => ⟨insertA c.blocks name [body]⟩
  | some stack =>
      ⟨insertA c.blocks name (if prepend then body :: stack else stack ++ [body])⟩

/-- PaletteBlockContext.push_override: an override takes highest precedence. -/
def PaletteBlockContext.push_override (c : PaletteBlockContext) (name : String)
    (body : List PNode) : PaletteBlockContext :=
  c.add_block name body true

/-- PaletteBlockContext.get_stack: the stack for a name, empty when absent. -/
def PaletteBlockContext.get_stack (c : PaletteBlockContext) (name : String) :
    List (List PNode) :=
  match lookupA c.blocks name with
  | none => []
  | some stack => stack

/-- PaletteBlockContext.get_top. -/
def PaletteBlockContext.get_top (c : PaletteBlockContext) (name : String) :
    Option (List PNode) :=
  match c.get_stack name with
  | [] => none
  | b :: _ => some b

/-- The render-scoped state kept in Django's context.render_context.  The
two tag libraries use distinct keys, so their states coexist:
palette_v2 uses palette_registry and palette_block_context; palette.py uses
PALETTE_COMPONENTS, palette_overrides and palette_current_component. -/
structure RenderCtx where
  palette_registry : Registry
  palette_block_context : Option PaletteBlockContext
  paletteComponentsV1 : Registry
  palette_overrides : Option (List (String × List PNode))
  palette_current_component : Option String

/-- The rendering context: a stack of variable scopes (head = most recently
pushed, as Django resolves variables from the last pushed dict down), the
render-scoped state, and the identity of the template being rendered
(context.template, consulted by palette_v2's component-definition node). -/
structure Ctx where
  scopes : List (List (String × Value))
  rc : RenderCtx
  templateName : Option String

/-- Context variable lookup: scan scopes from the most recent down. -/
def ctxGet (c : Ctx) (k : String) : Option Value :=
  c.scopes.findSome? fun scope => lookupA scope k

/-- Context variable assignment: context[k] = v writes into the most
recently pushed scope.  Host contexts always carry at least one scope; on an
empty scope stack the write is dropped. -/
def ctxSet (c : Ctx) (k : String) (v : Value) : Ctx :=
  match c.scopes with
  | [] => c
  | top :: rest => { c with scopes := insertA top k v :: rest }

/-- del context[k]: removes the key from the most recent scope only (the
KeyError raised when absent is swallowed by the source's except clause). -/
def ctxDel (c : Ctx) (k : String) : Ctx :=
  match c.scopes with
  | [] => c
  | top :: rest => { c with scopes := removeA top k :: rest }

/-- context.push(): a fresh empty scope. -/
def ctxPush (c : Ctx) : Ctx :=
  { c with scopes := [] :: c.scopes }

/-- context.pop(): drop the most recent scope. -/
def ctxPop (c : Ctx) : Ctx :=
  { c with scopes := c.scopes.tail }

/-- Context.flatten(): one merged dict, later (more recent) scopes winning.
Builds from the bottom scope up, replacing on key collision. -/
def flattenScopes (scopes : List (List (String × Value))) :
    List (String × Value) :=
  (scopes.reverse).foldl
    (fun acc scope => scope.foldl (fun a p => insertA a p.1 p.2) acc) []

/-- FilterExpression.resolve against a context.  Literals pass through;
variable paths resolve via the host capability, failing with Unresolvable
when absent (spec section 6); failing expressions raise their message. -/
def resolveFilterExpr (e : FilterExpr) (c : Ctx) : Except String Value :=
  match e with
  | .lit s => .ok (.str s)
  | .var p =>
      match ctxGet c p with
      | some v => .ok v
      | none => .error ("VariableDoesNotExist: " ++ p)
  | .failing m => .error m

/-- The template loading capability (loader.get_template).  One entry per
physical template: a canonical identity, the alias names the loader also
resolves to it (template identity is ambiguous across loader layers), and
the parsed node tree.  Loading by an unknown name fails. -/
abbrev TemplateEnv := List (String × List String × List PNode)

/-- loader.get_template: returns the canonical identity (tpl_obj.name /
tpl_obj.origin.name) together with the parsed nodelist, or none when the
loader raises TemplateDoesNotExist. -/
def getTemplate (env : TemplateEnv) (name : String) :
    Option (String × List PNode) :=
  match env with
  | [] => none
  | (canon, aliases, nodes) :: rest =>
      if canon = name || aliases.contains name then some (canon, nodes)
      else getTemplate rest name

/-- Child node lists that _iter_nodelist_recursive descends into: the walker
reads the attributes nodelist, nodelist_true, nodelist_false and
nodelist_loop.  palette_block, palette_component and palette_override nodes
store their body in .nodelist, as does palette.py's PaletteUINode;
palette_v2's PaletteUIRenderNode stores it in .inner_nodelist, which the
walker does not visit. -/
def childrenOf (n : PNode) : List PNode :=
  match n with
  | .paletteBlock _ b => b
  | .paletteBlockV1 _ b => b
  | .componentDef _ b => b
  | .componentDefV1 _ _ b => b
  | .overrideDecl _ b => b
  | .paletteUIV1 _ _ _ b => b
  | _ => []

/-- Recursive pre-order walk of a node tree (_iter_nodelist_recursive).
Fuel is an artifact bounding the traversal; walkFuel is ample for any
template in the repository. -/
def walkNodes : Nat → List PNode → List PNode
  | 0, _ => []
  | _ + 1, [] => []
  | f + 1, n :: rest => n :: (walkNodes f (childrenOf n) ++ walkNodes f rest)
termination_by structural f _ => f

/-- Default walk fuel; templates are nowhere near this size. -/
def walkFuel : Nat := 64

/-- The structural index of one template (_index_template_components):
its component definitions (dict keyed by name, later definitions replacing
earlier ones) and the first palette_extends parent, if any. -/
structure TemplateIndex where
  components : List (String × List PNode)
  parent : Option String

/-- Fold of the walked nodes into the index: comps[name] = node for every
palette_v2 component definition (the indexer's isinstance check matches only
palette_v2's PaletteComponentDefNode class); parent is taken from the first
extends marker only. -/
def indexFold (nodes : List PNode) : TemplateIndex :=
  nodes.foldl
    (fun idx n =>
      match n with
      | .componentDef name body => { idx with components := insertA idx.components name body }
      | .extendsMarker p =>
          match idx.parent with
          | none => { idx with parent := some p }
          | some _ => idx
      | _ => idx)
    ⟨[], none⟩

/-- _index_template_components: load the template and scan its node tree.
Returns none when loading fails (the TemplateSyntaxError raised there).
The lru_cache on the source function is semantically transparent. -/
def indexTemplate (env : TemplateEnv) (name : String) : Option TemplateIndex :=
  match getTemplate env name with
  | none => none
  | some (_, nodes) => some (indexFold (walkNodes walkFuel nodes))

/-- One step structure of PaletteUIRenderNode._build_palette_block_context_
for_component: walk the extends chain from the child template upward,
tracking visited identities; for each visited template that defines the
component, append (lower precedence) its block bodies in document order; a
repeated identity or a load failure stops the walk.  Fuel is an artifact
bounding the loop; the visited check fires before it is consulted, so a
cycle stops regardless of remaining fuel. -/
def buildWalk (env : TemplateEnv) (comp : String) :
    Nat → List String → Option String → PaletteBlockContext →
    PaletteBlockContext
  | 0, _, _, acc => acc
  | _ + 1, _, none, acc => acc
  | f + 1, visited, some cur, acc =>
      if cur = "" then acc
      else if visited.contains cur then acc
      else
        match indexTemplate env cur with
        | none => acc
        | some idx =>
            let acc' :=
              match lookupA idx.components comp with
              | none => acc
              | some body =>
                  (walkNodes walkFuel body).foldl
                    (fun a n =>
                      match n with
                      | .paletteBlock bn bbody => a.add_block bn bbody false
                      | _ => a)
                    acc
            match idx.parent with
            | none => acc'
            | some p =>
                if p = "" then acc'
                else buildWalk env comp f (cur :: visited) (some p) acc'
termination_by structural f _ _ _ => f

/-- _build_palette_block_context_for_component with the default fuel (one
more than the number of templates, enough for any acyclic chain; cycles stop
at the visited check). -/
def buildPBC (env : TemplateEnv) (comp : String) (start : String) :
    PaletteBlockContext :=
  buildWalk env comp (env.length + 1) [] (some start) ⟨[]⟩

/-- Truthiness of a looked-up component nodelist in palette_v2's lookup
chain (if comp_nodelist:): None and the empty NodeList are both falsy. -/
def truthyBody (o : Option (List PNode)) : Bool :=
  match o with
  | some (_ :: _) => true
  | _ => false

/-- Strategy 1 of palette.py's _find_component_in_registry: direct registry
lookup under the caller-supplied identity. -/
def strat1 (reg : Registry) (tpl comp : String) : Option (List PNode) :=
  lookupReg reg tpl comp

/-- Strategy 2: look up under the loader-resolved canonical identity; a
loader failure is swallowed (palette.py wraps this strategy in try/except). -/
def strat2 (reg : Registry) (env : TemplateEnv) (tpl comp : String) :
    Option (List PNode) :=
  match getTemplate env tpl with
  | none => none
  | some (canon, _) => if canon = "" then none else lookupReg reg canon comp

/-- Strategy 3: filename-only match — the first registered identity whose
basename equals the requested identity's basename and that holds the
component. -/
def strat3 (reg : Registry) (tpl comp : String) : Option (List PNode) :=
  match reg with
  | [] => none
  | (key, comps) :: rest =>
      if basename key = basename tpl then
        match lookupA comps comp with
        | some b => some b
        | none => strat3 rest tpl comp
      else strat3 rest tpl comp

/-- Strategy 4 of palette.py: scan the loaded template's node tree for a
component definition with the requested name (first match in walk order; the
isinstance check matches only palette.py's PaletteComponentNode class). -/
def strat4Scan (env : TemplateEnv) (tpl comp : String) :
    Option (List PNode) :=
  match getTemplate env tpl with
  | none => none
  | some (_, nodes) =>
      (walkNodes walkFuel nodes).findSome? fun n =>
        match n with
        | .componentDefV1 _ name body => if name = comp then some body else none
        | _ => none

/-- palette.py PaletteUINode._find_component_in_registry: the four lookup
strategies in order, each tried only when the previous found nothing; a
strategy-4 discovery is registered under the requested identity for future
lookups.  Returns the result together with the (possibly grown) registry. -/
def findComponentV1 (reg : Registry) (env : TemplateEnv) (tpl comp : String) :
    Option (List PNode) × Registry :=
  match strat1 reg tpl comp with
  | some b => (some b, reg)
  | none =>
      match strat2 reg env tpl comp with
      | some b => (some b, reg)
      | none =>
          match strat3 reg tpl comp with
          | some b => (some b, reg)
          | none =>
              match strat4Scan env tpl comp with
              | some b => (some b, registerReg reg tpl comp b)
              | none => (none, reg)

/-- Strategy 3 as written in palette_v2 (render lines 408-415): the scan
also reports the matching key as the component's origin, and only a truthy
body stops it. -/
def strat3find (r : Registry) (tpl comp : String) :
    Option (List PNode × String) :=
  match r with
  | [] => none
  | (key, comps) :: rest =>
      if basename key = basename tpl then
        match lookupA comps comp with
        | some (b :: bs) => some (b :: bs, key)
        | _ => strat3find rest tpl comp
      else strat3find rest tpl comp

/-- The inline lookup chain of palette_v2.py PaletteUIRenderNode.render
(lines 385-427).  Strategy 1: direct registry hit; strategy 2 loads the
template — a load failure returns the cannot-load diagnostic immediately
(error branch), without trying strategies 3 and 4 — then looks up the
canonical identity; strategy 3: basename match over registered identities;
strategy 4: structural index, registering any discovery under the requested
identity.  A found-but-empty strategy-4 body is registered yet reported as
not found, because the final check uses NodeList truthiness.  Returns
(found body and origin key, updated registry) or the early-return
diagnostic; in that diagnostic the interpolated exception text is modeled
by the requested name, which is what str of TemplateDoesNotExist prints. -/
def findComponentV2 (reg : Registry) (env : TemplateEnv)
    (tplName : Option String) (comp : String) :
    Except String (Option (List PNode × String) × Registry) :=
  let r1 := match tplName with
    | none => none
    | some t => lookupReg reg t comp
  if truthyBody r1 then
    .ok ((r1.map fun b => (b, disp tplName)), reg)
  else
    match getTemplate env (disp tplName) with
    | none =>
        .error ("<!-- palette_ui: cannot load template '" ++ disp tplName ++
          "': " ++ disp tplName ++ " -->")
    | some (canon, _) =>
        let r2 := if canon = "" then none else lookupReg reg canon comp
        if truthyBody r2 then .ok ((r2.map fun b => (b, canon)), reg)
        else
          let t := disp tplName
          match strat3find reg t comp with
          | some (b, key) => .ok (some (b, key), reg)
          | none =>
              match indexTemplate env t with
              | none => .ok (none, reg)
              | some idx =>
                  match lookupA idx.components comp with
                  | none => .ok (none, reg)
                  | some body =>
                      let reg' := registerReg reg t comp body
                      if truthyBody (some body) then
                        .ok (some (body, t), reg')
                      else .ok (none, reg')

/-- Resolution of palette_v2's with-vars (PaletteUIRenderNode.render lines
376-381): each value resolves against the caller's context; a failure makes
that one property None and the loop proceeds with the rest.  The source
builds a dict whose keys are unique by parse-time construction, so the loop
is a pointwise map. -/
def resolvePropsV2 (vars : List (String × FilterExpr)) (c : Ctx) :
    List (String × Value) :=
  match vars with
  | [] => []
  | (k, e) :: rest =>
      (k, match resolveFilterExpr e c with
          | .ok v => v
          | .error _ => Value.vnone) :: resolvePropsV2 rest c

/-- Resolution of palette.py's typed props (PaletteUINode.render lines
481-501): literal passthrough, expression evaluation at the moment of
invocation, tag passthrough; a per-property failure becomes None. -/
def resolvePropsV1 (props : List (String × PropSpec)) (c : Ctx) :
    List (String × Value) :=
  match props with
  | [] => []
  | (k, spec) :: rest =>
      (k, match spec with
          | .lit s => Value.str s
          | .tag s => Value.str s
          | .expr e =>
              match resolveFilterExpr e c with
              | .ok v => v
              | .error _ => Value.vnone) :: resolvePropsV1 rest c

/-- Collect palette_override declarations from an invocation's inner
nodelist (recursive walk; later declarations of the same name replace
earlier ones, as in the source's dict assignment).  palette_v2 keeps the
declared name verbatim. -/
def collectOverridesV2 (inner : List PNode) :
    List (String × List PNode) :=
  (walkNodes walkFuel inner).foldl
    (fun acc n =>
      match n with
      | .overrideDecl name body => insertA acc name body
      | _ => acc)
    []

/-- Quote stripping applied by palette.py to override names (render lines
507-511): a name that starts and ends with the same quote character loses
both. -/
def stripQuotes (s : String) : String :=
  match s.data with
  | [] => s
  | c :: rest =>
      if (c = '"' || c = Char.ofNat 39) && s.data.getLastD c = c then
        String.mk (rest.dropLast)
      else s

/-- Collect overrides for palette.py's renderer, stripping quotes from the
declared names. -/
def collectOverridesV1 (inner : List PNode) :
    List (String × List PNode) :=
  (walkNodes walkFuel inner).foldl
    (fun acc n =>
      match n with
      | .overrideDecl name body => insertA acc (stripQuotes name) body
      | _ => acc)
    []

/-- Resolution of a file/component token by palette.py's renderer: literal
strings are used as given; compiled expressions resolve via _resolve_token,
which returns None on any failure.  Values other than strings do not arise
for template/component names in practice and are treated as unresolved. -/
def resolveTokenV1 (t : TokOrExpr) (c : Ctx) : Option String :=
  match t with
  | .litTok s => some s
  | .exprTok e =>
      match resolveFilterExpr e c with
      | .ok (.str s) => some s
      | _ => none

/-- Python falsiness of a resolved name (if not tpl_name or not comp_name):
None and the empty string are falsy. -/
def falsyName (o : Option String) : Bool :=
  match o with
  | none => true
  | some s => s = ""

/-- A unit of rendering work: one node, a nodelist, or the body of one of
the two palette_ui renderers.  Separating the renderers into tasks keeps the
interpreter structurally recursive on its fuel. -/
inductive Task where
  | one (n : PNode)
  | many (ns : List PNode)
  | ui (fileTok : TokOrExpr) (comp : String)
      (withVars : List (String × FilterExpr)) (inner : List PNode)
  | uiV1 (fileTok : TokOrExpr) (compTok : TokOrExpr)
      (props : List (String × PropSpec)) (inner : List PNode)

/-- An empty render-scoped state, as carried by a freshly constructed
Context (palette.py's block renderer builds one for override bodies). -/
def emptyRC : RenderCtx := ⟨[], none, [], none, none⟩

/-- The per-invocation frame condition: same scope count, identical scopes
below the top one, and an unchanged installed block context. -/
def StateOK (a b : Ctx) : Prop :=
  b.scopes.length = a.scopes.length ∧ b.scopes.tail = a.scopes.tail ∧
  b.rc.palette_block_context = a.rc.palette_block_context

/-- The scoped-rendering tail of palette_v2's PaletteUIRenderNode.render
(lines 452-469), factored over the recursive renderer: push a scope, inject
the resolved props, render the inner nodelist into the children variable,
render the component body, and in the finally block pop the scope and
restore the saved palette_block_context — on the success and on the error
path alike (an error in either render propagates after restoration). -/
def scopedBodyRender (rec : Task → Ctx → Ctx × Except String String)
    (lv : List (String × Value)) (inner body : List PNode)
    (prevPbc : Option PaletteBlockContext) (c2 : Ctx) :
    Ctx × Except String String :=
  let c3 := ctxPush c2
  let c4 := lv.foldl (fun c kv => ctxSet c kv.1 kv.2) c3
  match rec (.many inner) c4 with
  | (c5, .error m) =>
      let c6 := ctxPop c5
      ({ c6 with rc := { c6.rc with palette_block_context := prevPbc } },
       .error m)
  | (c5, .ok ch) =>
      let c6 := ctxSet c5 "children" (.str ch)
      match rec (.many body) c6 with
      | (c7, r) =>
          let c8 := ctxPop c7
          ({ c8 with rc := { c8.rc with palette_block_context := prevPbc } },
           r)

/-- The scoped-rendering tail of palette.py's PaletteUINode.render (lines
524-549): push a scope, inject props and the two debug variables, render
the component body catching any exception into an inline diagnostic, then
pop the scope and restore the saved override state.  Always returns
normally. -/
def scopedBodyRenderV1 (rec : Task → Ctx → Ctx × Except String String)
    (lv : List (String × Value)) (body : List PNode) (reg' : Registry)
    (comp : String) (prevOv : Option (List (String × List PNode)))
    (prevComp : Option String) (c1 : Ctx) : Ctx × Except String String :=
  let c2 := ctxPush c1
  let c3 := lv.foldl (fun c kv => ctxSet c kv.1 kv.2) c2
  let c4 := ctxSet c3 "PALETTE_COMPONENTS" (.vregistry reg')
  let c5 := ctxSet c4 "component_name" (.str comp)
  match rec (.many body) c5 with
  | (c6, rbody) =>
      let rendered := match rbody with
        | .ok s => s
        | .error m => "<!-- palette_ui render error: " ++ m ++ " -->"
      let c7 := ctxPop c6
      ({ c7 with rc := { c7.rc with
          palette_overrides := prevOv,
          palette_current_component := prevComp } },
       .ok rendered)

/-- Lookup and scoped rendering of palette_v2's renderer after the file
token has been resolved (render lines 385-469): run the four-strategy
lookup, emit the cannot-load or not-found diagnostics, or build the merged
block context along the extends chain, prepend the caller overrides,
install the context, expose the registry debug variable, and hand over to
the scoped-render tail. -/
def uiLookupAndRender (rec : Task → Ctx → Ctx × Except String String)
    (env : TemplateEnv) (comp : String) (lv : List (String × Value))
    (inner : List PNode) (tplName : Option String) (ctx : Ctx) :
    Ctx × Except String String :=
  match findComponentV2 ctx.rc.palette_registry env tplName comp with
  | .error c => (ctx, .ok c)
  | .ok (none, reg') =>
      ({ ctx with rc := { ctx.rc with palette_registry := reg' } },
       .ok ("<!-- palette_ui: component '" ++ comp ++
         "' not found in template '" ++ disp tplName ++ "' -->"))
  | .ok (some (body, originKey), reg') =>
      let c0 := { ctx with rc := { ctx.rc with palette_registry := reg' } }
      let pbc0 := buildPBC env comp originKey
      let pbc1 := (collectOverridesV2 inner).foldl
        (fun p kv => p.push_override kv.1 kv.2) pbc0
      let prevPbc := c0.rc.palette_block_context
      let c1 := { c0 with rc := { c0.rc with palette_block_context := some pbc1 } }
      let c2 := ctxSet c1 "PALETTE_COMPONENTS" (.vregistry reg')
      scopedBodyRender rec lv inner body prevPbc c2

/-- Load check, lookup and scoped rendering of palette.py's renderer after
both name tokens resolved truthy (render lines 459-549). -/
def uiV1AfterResolve (rec : Task → Ctx → Ctx × Except String String)
    (env : TemplateEnv) (props : List (String × PropSpec))
    (inner : List PNode) (tpl comp : String) (ctx : Ctx) :
    Ctx × Except String String :=
  match getTemplate env tpl with
  | none =>
      (ctx, .ok ("<!-- palette_ui: template '" ++ tpl ++ "' not found -->"))
  | some _ =>
      match findComponentV1 ctx.rc.paletteComponentsV1 env tpl comp with
      | (found, reg') =>
        let c0 := { ctx with rc := { ctx.rc with paletteComponentsV1 := reg' } }
        match found with
        | none =>
            (c0, .ok ("<!-- palette_ui: component '" ++ comp ++
              "' not found -->"))
        | some body =>
            let localVars := resolvePropsV1 props c0
            let ovs := collectOverridesV1 inner
            let prevOv := c0.rc.palette_overrides
            let prevComp := c0.rc.palette_current_component
            let c1 := { c0 with rc := { c0.rc with
              palette_overrides := some ovs,
              palette_current_component := some comp } }
            scopedBodyRenderV1 rec localVars body reg' comp prevOv prevComp c1

/-- The palette rendering interpreter.  Dispatches on the node class the
way Django's NodeList.render does; the .ui task is the body of palette_v2's
PaletteUIRenderNode.render, the .uiV1 task the body of palette.py's
PaletteUINode.render.  The returned context carries all state mutations,
also on the error path (exceptions do not roll state back); try/finally
blocks are modeled by performing their restorations on both outcomes.
Fuel bounds the recursion depth: exhaustion is Python's RecursionError,
surfacing as a raised error. -/
def render : Nat → TemplateEnv → Task → Ctx → Ctx × Except String String
  | 0, _, _, ctx => (ctx, .error "maximum recursion depth exceeded")
  | f + 1, env, task, ctx =>
    match task with
    | .many [] => (ctx, .ok "")
    | .many (n :: rest) =>
        match render f env (.one n) ctx with
        | (c1, .error m) => (c1, .error m)
        | (c1, .ok s1) =>
            match render f env (.many rest) c1 with
            | (c2, .error m) => (c2, .error m)
            | (c2, .ok s2) => (c2, .ok (s1 ++ s2))
    | .one n =>
      match n with
      | .text s => (ctx, .ok s)
      | .raiseNode m => (ctx, .error m)
      | .blockSuper =>
          -- Resolving the variable block.super: a v2 _BlockSuper handle
          -- renders the next body in its stack (or "" past the end),
          -- temporarily repointing the block variable; a v1 _Block handle
          -- holds the pre-rendered original as a plain string; any other
          -- value renders as the engine's string_if_invalid, "".
          match ctxGet ctx "block" with
          | some (.blockHandle stack i) =>
              let next := i + 1
              if next < stack.length then
                let prev := ctxGet ctx "block"
                let c1 := ctxSet ctx "block" (.blockHandle stack next)
                let (c2, r) := render f env (.many (stack.getD next [])) c1
                let c3 := match prev with
                  | none => ctxDel c2 "block"
                  | some v => ctxSet c2 "block" v
                (c3, r)
              else (ctx, .ok "")
          | some (.blockStr s) => (ctx, .ok s)
          | _ => (ctx, .ok "")
      | .paletteBlock name body =>
          -- palette_v2 PaletteBlockNode.render: consult the installed
          -- PaletteBlockContext; fall back to the lexical default body when
          -- no palette environment (or no stack for this name) exists;
          -- otherwise render the top of the stack with a _BlockSuper handle
          -- bound to the block variable, restoring it afterwards.
          match ctx.rc.palette_block_context with
          | none => render f env (.many body) ctx
          | some pbc =>
              match pbc.get_stack name with
              | [] => render f env (.many body) ctx
              | top :: rest =>
                  let prev := ctxGet ctx "block"
                  let c1 := ctxSet ctx "block" (.blockHandle (top :: rest) 0)
                  let (c2, r) := render f env (.many top) c1
                  let c3 := match prev with
                    | none => ctxDel c2 "block"
                    | some v => ctxSet c2 "block" v
                  (c3, r)
      | .paletteBlockV1 name body =>
          -- palette.py PaletteBlockNode.render: render the base content
          -- first; if an override is installed for this name, render it in
          -- an isolated flattened context exposing block.super as the
          -- pre-rendered base, discarding that context afterwards.
          match render f env (.many body) ctx with
          | (c1, .error m) => (c1, .error m)
          | (c1, .ok original) =>
              let ovs := match c1.rc.palette_overrides with
                | none => []
                | some l => l
              match lookupA ovs name with
              | none => (c1, .ok original)
              | some ovBody =>
                  let base := flattenScopes c1.scopes
                  let temp : Ctx :=
                    ⟨[insertA base "block" (.blockStr original)], emptyRC, none⟩
                  let (_, rOv) := render f env (.many ovBody) temp
                  (c1, rOv)
      | .componentDef name body =>
          -- palette_v2 PaletteComponentDefNode.render: register the body in
          -- the render-scoped registry keyed by the current template name
          -- (or an inline fallback key), expose the registry for debugging,
          -- emit nothing.
          let key := match ctx.templateName with
            | some t => if t = "" then "inline:" ++ name else t
            | none => "inline:" ++ name
          let reg' := registerReg ctx.rc.palette_registry key name body
          let c1 := { ctx with rc := { ctx.rc with palette_registry := reg' } }
          let c2 := ctxSet c1 "PALETTE_COMPONENTS" (.vregistry reg')
          (c2, .ok "")
      | .componentDefV1 fileKey name body =>
          -- palette.py PaletteComponentNode.render: register under the file
          -- key recorded at parse time, expose the registry, then render
          -- the default content for preview.
          let reg' := registerReg ctx.rc.paletteComponentsV1 fileKey name body
          let c1 := { ctx with rc := { ctx.rc with paletteComponentsV1 := reg' } }
          let c2 := ctxSet c1 "PALETTE_COMPONENTS" (.vregistry reg')
          render f env (.many body) c2
      | .extendsMarker _ => (ctx, .ok "")
      | .overrideDecl _ _ => (ctx, .ok "")
      | .paletteUI ft comp wv inner => render f env (.ui ft comp wv inner) ctx
      | .paletteUIV1 ft ctk props inner =>
          render f env (.uiV1 ft ctk props inner) ctx
    | .ui ft comp wv inner =>
      -- palette_v2 PaletteUIRenderNode.render: resolve the file token,
      -- resolve the props, then look up and render.
      let tplRes : Except String (Option String) :=
        match ft with
        | .litTok s => .ok (some s)
        | .exprTok e =>
            match resolveFilterExpr e ctx with
            | .ok (.str s) => .ok (some s)
            | .ok _ => .ok none
            | .error m => .error m
      match tplRes with
      | .error m =>
          (ctx, .ok ("<!-- palette_ui error resolving file: " ++ m ++ " -->"))
      | .ok tplName =>
          uiLookupAndRender (render f env) env comp (resolvePropsV2 wv ctx)
            inner tplName ctx
    | .uiV1 ft ctk props inner =>
      -- palette.py PaletteUINode.render: resolve both tokens, emit the
      -- falsy-name diagnostic, then load, look up and render.
      let tplName := resolveTokenV1 ft ctx
      let compName := resolveTokenV1 ctk ctx
      if falsyName tplName || falsyName compName then
        (ctx, .ok ("<!-- palette_ui: file='" ++ disp tplName ++
          "' component='" ++ disp compName ++ "' -->"))
      else
        uiV1AfterResolve (render f env) env props inner (disp tplName)
          (disp compName) ctx
termination_by structural fuel _ _ _ => fuel

/-- A minimal caller context: one empty variable scope, empty render-scoped
state, no bound template (as at the start of a page render). -/
def sampleCtx : Ctx := ⟨[[]], emptyRC, none⟩

/-- A context whose scope binds myvar to the string card. -/
def myvarCtx : Ctx := ⟨[[("myvar", .str "card")]], emptyRC, none⟩

/-- One template defining component card with block header defaulting to
Untitled (the spec's end-to-end example), in palette_v2 node classes. -/
def envCard : TemplateEnv :=
  [("card.html", [], [ .componentDef "card"
      [ .paletteBlock "header" [ .text "Untitled" ] ] ])]

/-- The same card component in palette.py node classes. -/
def envCardV1 : TemplateEnv :=
  [("card.html", [], [ .componentDefV1 "card.html" "card"
      [ .paletteBlockV1 "header" [ .text "Untitled" ] ] ])]

/-- An extends chain A -> B -> C, each defining component comp with a block
x whose default body names the template. -/
def envABC : TemplateEnv :=
  [ ("A.html", [], [ .extendsMarker "B.html",
      .componentDef "comp" [ .paletteBlock "x" [ .text "A" ] ] ]),
    ("B.html", [], [ .extendsMarker "C.html",
      .componentDef "comp" [ .paletteBlock "x" [ .text "B" ] ] ]),
    ("C.html", [], [ .componentDef "comp" [ .paletteBlock "x" [ .text "C" ] ] ]) ]

/-- A cyclic extends chain A -> B -> A. -/
def envCyc : TemplateEnv :=
  [ ("A.html", [], [ .extendsMarker "B.html",
      .componentDef "comp" [ .paletteBlock "x" [ .text "A" ] ] ]),
    ("B.html", [], [ .extendsMarker "A.html",
      .componentDef "comp" [ .paletteBlock "x" [ .text "B" ] ] ]) ]

/-- Component X invokes component Y from another file (nested invocation). -/
def envXY : TemplateEnv :=
  [ ("x.html", [], [ .componentDef "X"
      [ .text "[", .paletteUI (.litTok "y.html") "Y" [] [], .text "]" ] ]),
    ("y.html", [], [ .componentDef "Y" [ .text "y" ] ]) ]

/-- A component whose body raises while rendering. -/
def envBoom : TemplateEnv :=
  [("t.html", [], [ .componentDef "C" [ .raiseNode "boom" ] ])]

/-- The palette.py flavor of the raising component. -/
def envBoomV1 : TemplateEnv :=
  [("t.html", [], [ .componentDefV1 "t.html" "C" [ .raiseNode "boom" ] ])]

/-- A registry holding component card under the identity ui/card.html, used
to exercise the filename-only lookup strategy. -/
def regBase : Registry := [("ui/card.html", [("card", [ .text "c" ])])]

/-- A caller context that carries regBase as its v2 registry. -/
def regBaseCtx : Ctx :=
  ⟨[[]], { emptyRC with palette_registry := regBase }, none⟩

/-- The body of the palette.py card component, for the lookup witnesses. -/
def cardV1Body : List PNode := [ .paletteBlockV1 "header" [ .text "Untitled" ] ]

/-- The component= token handling of palette_v2's do_palette_ui parser
(lines 502-507): a quoted token is stripped of its quotes; an unquoted
token is stored verbatim as the component name.  Unlike the file= token,
it is never compiled into an expression, so it is not resolved against the
caller's context at render time. -/
def componentTokenV2 (raw : String) : String := stripQuotes raw

/-- A depth-one block context holding only the header default. -/
def headerPBC : PaletteBlockContext := ⟨[("header", [[ .text "Untitled" ]])]⟩

/-- A context with the depth-one header stack installed. -/
def headerCtx : Ctx :=
  ⟨[[]], { emptyRC with palette_block_context := some headerPBC }, none⟩

/-- The header stack after a caller override using block.super was pushed. -/
def overridePBC : PaletteBlockContext :=
  headerPBC.push_override "header" [ .text "Re", .blockSuper, .text "port" ]

/-- A context in which a caller override for header (using block.super) has
been pushed onto the header stack. -/
def overrideCtx : Ctx :=
  ⟨[[]], { emptyRC with palette_block_context := some overridePBC }, none⟩

/-! Helper lemmas about the association-list and stack primitives. -/

theorem lookupA_insertA_self {α : Type} (l : List (String × α)) (k : String)
    (v : α) : lookupA (insertA l k v) k = some v := by
  induction l with
  | nil => simp [insertA, lookupA]
  | cons p rest ih =>
      obtain ⟨k', v'⟩ := p
      by_cases h : k' = k
      · simp [insertA, h, lookupA]
      · simp [insertA, h, lookupA, ih]

theorem get_stack_push_override (c : PaletteBlockContext) (n : String)
    (b : List PNode) : (c.push_override n b).get_stack n = b :: c.get_stack n := by
  unfold PaletteBlockContext.push_override PaletteBlockContext.add_block
    PaletteBlockContext.get_stack
  cases h : lookupA c.blocks n with
  | none => simp [h, lookupA_insertA_self]
  | some stack => simp [h, lookupA_insertA_self]

theorem ctxGet_ctxSet_self (t : List (String × Value))
    (ts : List (List (String × Value))) (rc : RenderCtx) (tn : Option String)
    (k : String) (v : Value) :
    ctxGet (ctxSet ⟨t :: ts, rc, tn⟩ k v) k = some v := by
  simp [ctxGet, ctxSet, lookupA_insertA_self]

theorem one_lt_len (n : Nat) : 1 < n + 1 + 1 := by omega

/-! Single-step reduction lemmas for the interpreter, all definitional.
They let proofs evaluate a run without ever unfolding the full equation of
render, which keeps rewriting terms small. -/

theorem render_one_paletteBlock (f : Nat) (env : TemplateEnv) (name : String)
    (body : List PNode) (sc : List (List (String × Value))) (reg : Registry)
    (pb : Option PaletteBlockContext) (r1 : Registry)
    (ov : Option (List (String × List PNode))) (cc : Option String)
    (tn : Option String) :
    render (f + 1) env (.one (.paletteBlock name body)) ⟨sc, ⟨reg, pb, r1, ov, cc⟩, tn⟩ =
      (match pb with
       | none => render f env (.many body) ⟨sc, ⟨reg, pb, r1, ov, cc⟩, tn⟩
       | some pbc =>
          match pbc.get_stack name with
          | [] => render f env (.many body) ⟨sc, ⟨reg, pb, r1, ov, cc⟩, tn⟩
          | top :: rest =>
              let ctx : Ctx := ⟨sc, ⟨reg, pb, r1, ov, cc⟩, tn⟩
              let prev := ctxGet ctx "block"
              let c1 := ctxSet ctx "block" (.blockHandle (top :: rest) 0)
              let (c2, r) := render f env (.many top) c1
              let c3 := match prev with
                | none => ctxDel c2 "block"
                | some v => ctxSet c2 "block" v
              (c3, r)) := by
  rfl

theorem render_many_nil (f : Nat) (env : TemplateEnv) (c : Ctx) :
    render (f + 1) env (.many []) c = (c, .ok "") := rfl

theorem render_many_cons (f : Nat) (env : TemplateEnv) (n : PNode)
    (rest : List PNode) (c : Ctx) :
    render (f + 1) env (.many (n :: rest)) c =
      (match render f env (.one n) c with
       | (c1, .error m) => (c1, .error m)
       | (c1, .ok s1) =>
           match render f env (.many rest) c1 with
           | (c2, .error m) => (c2, .error m)
           | (c2, .ok s2) => (c2, .ok (s1 ++ s2))) := rfl

theorem render_one_text (f : Nat) (env : TemplateEnv) (s : String) (c : Ctx) :
    render (f + 1) env (.one (.text s)) c = (c, .ok s) := rfl

theorem render_one_raise (f : Nat) (env : TemplateEnv) (m : String) (c : Ctx) :
    render (f + 1) env (.one (.raiseNode m)) c = (c, .error m) := rfl

theorem render_one_blockSuper (f : Nat) (env : TemplateEnv) (c : Ctx) :
    render (f + 1) env (.one .blockSuper) c =
      (match ctxGet c "block" with
       | some (.blockHandle stack i) =>
           if i + 1 < stack.length then
             let prev := ctxGet c "block"
             let c1 := ctxSet c "block" (.blockHandle stack (i + 1))
             let (c2, r) := render f env (.many (stack.getD (i + 1) [])) c1
             let c3 := match prev with
               | none => ctxDel c2 "block"
               | some v => ctxSet c2 "block" v
             (c3, r)
           else (c, .ok "")
       | some (.blockStr s) => (c, .ok s)
       | _ => (c, .ok "")) := rfl

/-- C10: for every palette_v2 block node rendered with no per-render block
context installed, or with an empty stack for the block's name, rendering
falls back to the block's own lexically contained default body, so a
template containing component and block definitions renders directly. -/
theorem C10_block_fallback (f : Nat) (env : TemplateEnv) (name : String)
    (body : List PNode) (ctx : Ctx) :
    (ctx.rc.palette_block_context = none →
      render (f + 1) env (.one (.paletteBlock name body)) ctx =
        render f env (.many body) ctx) ∧
    (∀ pbc, ctx.rc.palette_block_context = some pbc →
      pbc.get_stack name = [] →
      render (f + 1) env (.one (.paletteBlock name body)) ctx =
        render f env (.many body) ctx) ∧
    ((render 5 [] (.many [ .text "a", .paletteBlock "b" [ .text "D" ],
        .text "c" ]) sampleCtx).2 = .ok "aDc") := by
  obtain ⟨sc, ⟨reg, pb, r1, ov, cc⟩, tn⟩ := ctx
  refine ⟨?_, ?_, rfl⟩
  · intro h
    simp only [RenderCtx.palette_block_context] at h
    subst h
    rfl
  · intro pbc h hs
    simp only [RenderCtx.palette_block_context] at h
    subst h
    rw [render_one_paletteBlock]
    dsimp only []
    rw [hs]

/-- C10 witness: the fallback branch evaluated at a concrete block. -/
theorem C10_witness :
    sampleCtx.rc.palette_block_context = none ∧
    render 3 [] (.one (.paletteBlock "b" [ .text "D" ])) sampleCtx =
      render 2 [] (.many [ .text "D" ]) sampleCtx :=
  ⟨rfl, (C10_block_fallback 2 [] "b" [ .text "D" ] sampleCtx).1 rfl⟩

/-- C2: when the override stack for a block name has depth one, rendering
the block renders stack[0] — the template-defined default — so invoking a
component with no caller overrides renders each block's default body. -/
theorem C2_depth_one_renders_default (f : Nat) (env : TemplateEnv)
    (name : String) (dflt : List PNode) (s : String) (ctx : Ctx)
    (pbc : PaletteBlockContext)
    (hp : ctx.rc.palette_block_context = some pbc)
    (hs : pbc.get_stack name = [[ .text s ]]) :
    ((render (f + 3) env (.one (.paletteBlock name dflt)) ctx).2 = .ok s) ∧
    ((render 20 envCard (.ui (.litTok "card.html") "card" [] []) sampleCtx).2 =
      .ok "Untitled") := by
  constructor
  · obtain ⟨sc, ⟨reg, pb, r1, ov, cc⟩, tn⟩ := ctx
    simp only [RenderCtx.palette_block_context] at hp
    subst hp
    rw [show f + 3 = (f + 2) + 1 from rfl, render_one_paletteBlock]
    dsimp only []
    rw [hs]
    simp only [show f + 2 = (f + 1) + 1 from rfl, render_many_cons,
      render_many_nil, render_one_text, String.append_empty]
  · rfl

/-- C2 witness: a depth-one stack rendered at a concrete input. -/
theorem C2_witness :
    headerPBC.get_stack "header" = [[ .text "Untitled" ]] ∧
    (render 3 [] (.one (.paletteBlock "header" [ .text "D" ])) headerCtx).2 =
      .ok "Untitled" :=
  ⟨rfl, (C2_depth_one_renders_default 0 [] "header" [ .text "D" ] "Untitled"
    headerCtx headerPBC rfl rfl).1⟩

/-- C1: supplying an override for an existing block renders the override
body in place of the default; a block.super reference inside the override
substitutes the rendered text of the next-in-stack body exactly once,
verbatim, and substitutes the empty string when no next entry exists. -/
theorem C1_override_renders_with_super (f : Nat) (env : TemplateEnv)
    (name : String) (dflt : List PNode) (pre post nextStr : String)
    (rest : List (List PNode)) (ctx : Ctx) (pbc0 : PaletteBlockContext)
    (hne : ctx.scopes ≠ [])
    (hp : ctx.rc.palette_block_context =
      some (pbc0.push_override name [ .text pre, .blockSuper, .text post ])) :
    (pbc0.get_stack name = [ .text nextStr ] :: rest →
      (render (f + 7) env (.one (.paletteBlock name dflt)) ctx).2 =
        .ok (pre ++ (nextStr ++ post))) ∧
    (pbc0.get_stack name = [] →
      (render (f + 7) env (.one (.paletteBlock name dflt)) ctx).2 =
        .ok (pre ++ post)) := by
  obtain ⟨sc, ⟨reg, pb, r1, ov, cc⟩, tn⟩ := ctx
  simp only [RenderCtx.palette_block_context] at hp
  subst hp
  match sc, hne with
  | t :: ts, _ =>
  constructor
  · intro hs
    rw [show f + 7 = (f + 6) + 1 from rfl, render_one_paletteBlock]
    dsimp only []
    rw [get_stack_push_override, hs]
    simp only [show f + 6 = (f + 5) + 1 from rfl,
      show f + 5 = (f + 4) + 1 from rfl, show f + 4 = (f + 3) + 1 from rfl,
      show f + 3 = (f + 2) + 1 from rfl, show f + 2 = (f + 1) + 1 from rfl,
      render_many_cons, render_many_nil, render_one_text,
      render_one_blockSuper, ctxGet_ctxSet_self, List.length_cons,
      Nat.zero_add, one_lt_len, if_true, List.getD_cons_succ,
      List.getD_cons_zero, String.append_empty]
  · intro hs
    rw [show f + 7 = (f + 6) + 1 from rfl, render_one_paletteBlock]
    dsimp only []
    rw [get_stack_push_override, hs]
    simp only [show f + 6 = (f + 5) + 1 from rfl,
      show f + 5 = (f + 4) + 1 from rfl, show f + 4 = (f + 3) + 1 from rfl,
      render_many_cons, render_many_nil, render_one_text,
      render_one_blockSuper, ctxGet_ctxSet_self, List.length_cons,
      List.length_nil, Nat.zero_add, lt_self_iff_false, if_false,
      String.append_empty, String.empty_append]

/-- C1 witness: the override on the header stack, with block.super pulling
in the Untitled default, evaluated concretely. -/
theorem C1_witness :
    headerPBC.get_stack "header" = [ .text "Untitled" ] :: [] ∧
    (render 7 [] (.one (.paletteBlock "header" [ .text "D" ])) overrideCtx).2 =
      .ok ("Re" ++ ("Untitled" ++ "port")) :=
  ⟨rfl,
    (C1_override_renders_with_super 0 [] "header" [ .text "D" ] "Re" "port"
      "Untitled" [] overrideCtx headerPBC (by simp [overrideCtx]) rfl).1 rfl⟩

/-! Frame condition: every render step preserves the scope-stack shape and
the installed palette block context. -/

theorem StateOK.rfl' (a : Ctx) : StateOK a a := ⟨rfl, rfl, rfl⟩

theorem StateOK.trans' {a b c : Ctx} (h1 : StateOK a b) (h2 : StateOK b c) :
    StateOK a c :=
  ⟨h2.1.trans h1.1, h2.2.1.trans h1.2.1, h2.2.2.trans h1.2.2⟩

theorem StateOK_ctxSet (c : Ctx) (k : String) (v : Value) :
    StateOK c (ctxSet c k v) := by
  unfold ctxSet
  cases h : c.scopes with
  | nil => exact StateOK.rfl' c
  | cons t ts => exact ⟨by simp [h], by simp [h], rfl⟩

theorem StateOK_ctxDel (c : Ctx) (k : String) : StateOK c (ctxDel c k) := by
  unfold ctxDel
  cases h : c.scopes with
  | nil => exact StateOK.rfl' c
  | cons t ts => exact ⟨by simp [h], by simp [h], rfl⟩

theorem StateOK_foldl_set (l : List (String × Value)) :
    ∀ c : Ctx, StateOK c (l.foldl (fun a kv => ctxSet a kv.1 kv.2) c) := by
  induction l with
  | nil => intro c; exact StateOK.rfl' c
  | cons kv rest ih =>
      intro c
      exact (StateOK_ctxSet c kv.1 kv.2).trans' (ih _)

/-- The v2 scoped-render tail leaves the scope stack exactly as it found it
and installs the saved palette_block_context, on success and on failure. -/
theorem scopedBodyRender_shape
    (rec : Task → Ctx → Ctx × Except String String)
    (hrec : ∀ t c, StateOK c (rec t c).1)
    (lv : List (String × Value)) (inner body : List PNode)
    (pv : Option PaletteBlockContext) (c2 : Ctx) :
    (scopedBodyRender rec lv inner body pv c2).1.scopes = c2.scopes ∧
    (scopedBodyRender rec lv inner body pv c2).1.rc.palette_block_context = pv := by
  unfold scopedBodyRender
  have h4 := StateOK_foldl_set lv (ctxPush c2)
  rcases e5 : rec (.many inner)
      (lv.foldl (fun a kv => ctxSet a kv.1 kv.2) (ctxPush c2)) with ⟨c5, rch⟩
  have h5 := hrec (.many inner)
      (lv.foldl (fun a kv => ctxSet a kv.1 kv.2) (ctxPush c2))
  rw [e5] at h5
  have htail : c5.scopes.tail = c2.scopes := by
    have h := h5.2.1.trans h4.2.1
    simpa [ctxPush] using h
  dsimp only []
  rw [e5]
  cases rch with
  | error m =>
      exact ⟨by simpa [ctxPop] using htail, rfl⟩
  | ok ch =>
      dsimp only []
      have h6 := StateOK_ctxSet c5 "children" (.str ch)
      rcases e7 : rec (.many body) (ctxSet c5 "children" (.str ch)) with ⟨c7, r⟩
      have h7 := hrec (.many body) (ctxSet c5 "children" (.str ch))
      rw [e7] at h7
      have ht7 : c7.scopes.tail = c2.scopes :=
        (h7.2.1.trans h6.2.1).trans htail
      exact ⟨by simpa [ctxPop] using ht7, rfl⟩

/-- The v1 scoped-render tail leaves the scope stack exactly as it found it
and never changes the installed palette_block_context. -/
theorem scopedBodyRenderV1_shape
    (rec : Task → Ctx → Ctx × Except String String)
    (hrec : ∀ t c, StateOK c (rec t c).1)
    (lv : List (String × Value)) (body : List PNode) (reg' : Registry)
    (comp : String) (prevOv : Option (List (String × List PNode)))
    (prevComp : Option String) (c1 : Ctx) :
    (scopedBodyRenderV1 rec lv body reg' comp prevOv prevComp c1).1.scopes =
      c1.scopes ∧
    (scopedBodyRenderV1 rec lv body reg' comp prevOv prevComp c1).1.rc.palette_block_context =
      c1.rc.palette_block_context := by
  unfold scopedBodyRenderV1
  have h3 := StateOK_foldl_set lv (ctxPush c1)
  have h4 := StateOK_ctxSet
      (lv.foldl (fun a kv => ctxSet a kv.1 kv.2) (ctxPush c1))
      "PALETTE_COMPONENTS" (.vregistry reg')
  have h5 := StateOK_ctxSet
      (ctxSet (lv.foldl (fun a kv => ctxSet a kv.1 kv.2) (ctxPush c1))
        "PALETTE_COMPONENTS" (.vregistry reg'))
      "component_name" (.str comp)
  rcases e6 : rec (.many body)
      (ctxSet (ctxSet (lv.foldl (fun a kv => ctxSet a kv.1 kv.2) (ctxPush c1))
        "PALETTE_COMPONENTS" (.vregistry reg')) "component_name" (.str comp))
      with ⟨c6, rbody⟩
  have h6 := hrec (.many body)
      (ctxSet (ctxSet (lv.foldl (fun a kv => ctxSet a kv.1 kv.2) (ctxPush c1))
        "PALETTE_COMPONENTS" (.vregistry reg')) "component_name" (.str comp))
  rw [e6] at h6
  have htail : c6.scopes.tail = c1.scopes := by
    have h := ((h6.2.1.trans h5.2.1).trans h4.2.1).trans h3.2.1
    simpa [ctxPush] using h
  have hpbc : c6.rc.palette_block_context = c1.rc.palette_block_context :=
    ((h6.2.2.trans h5.2.2).trans h4.2.2).trans h3.2.2
  dsimp only []
  rw [e6]
  exact ⟨by simpa [ctxPop] using htail, by simpa [ctxPop] using hpbc⟩

/-- C3: for the extends chain A to B to C, each defining block x, the merged
stack built by the walk is exactly A.x, B.x, C.x (child at index 0,
ancestors appended in inheritance order); rendering the component renders
A.x; a caller override is prepended, becoming index 0; and the cyclic chain
A to B to A truncates at the repeated identity for every remaining fuel,
without looping. -/
theorem C3_extends_chain_merge :
    ((buildPBC envABC "comp" "A.html").get_stack "x" =
      [[ .text "A" ], [ .text "B" ], [ .text "C" ]]) ∧
    ((render 30 envABC (.ui (.litTok "A.html") "comp" [] []) sampleCtx).2 =
      .ok "A") ∧
    (((buildPBC envABC "comp" "A.html").push_override "x" [ .text "O" ]).get_stack "x" =
      [[ .text "O" ], [ .text "A" ], [ .text "B" ], [ .text "C" ]]) ∧
    ∀ f : Nat,
      (buildWalk envCyc "comp" (f + 3) [] (some "A.html") ⟨[]⟩).get_stack "x" =
        [[ .text "A" ], [ .text "B" ]] := by
  refine ⟨rfl, rfl, rfl, fun f => ?_⟩
  simp [buildWalk, indexTemplate, getTemplate, envCyc, indexFold, walkNodes,
    walkFuel, childrenOf, lookupA, PaletteBlockContext.add_block,
    PaletteBlockContext.get_stack, insertA]

/-- The v2 lookup-and-render pipeline satisfies the frame condition given
that the recursive renderer does. -/
theorem uiLookupAndRender_StateOK
    (rec : Task → Ctx → Ctx × Except String String)
    (hrec : ∀ t c, StateOK c (rec t c).1) (env : TemplateEnv)
    (comp : String) (lv : List (String × Value)) (inner : List PNode)
    (tplName : Option String) (ctx : Ctx) :
    StateOK ctx (uiLookupAndRender rec env comp lv inner tplName ctx).1 := by
  unfold uiLookupAndRender
  rcases hf : findComponentV2 ctx.rc.palette_registry env tplName comp with
    m | ⟨found, reg'⟩
  · exact StateOK.rfl' ctx
  · cases found with
    | none => exact ⟨rfl, rfl, rfl⟩
    | some bo =>
        obtain ⟨body, originKey⟩ := bo
        dsimp only []
        refine ⟨?_, ?_, ?_⟩
        · rw [(scopedBodyRender_shape rec hrec lv inner body _ _).1]
          exact (StateOK_ctxSet _ _ _).1
        · rw [(scopedBodyRender_shape rec hrec lv inner body _ _).1]
          exact (StateOK_ctxSet _ _ _).2.1
        · rw [(scopedBodyRender_shape rec hrec lv inner body _ _).2]

/-- The v1 load-lookup-render pipeline satisfies the frame condition given
that the recursive renderer does. -/
theorem uiV1AfterResolve_StateOK
    (rec : Task → Ctx → Ctx × Except String String)
    (hrec : ∀ t c, StateOK c (rec t c).1) (env : TemplateEnv)
    (props : List (String × PropSpec)) (inner : List PNode)
    (tpl comp : String) (ctx : Ctx) :
    StateOK ctx (uiV1AfterResolve rec env props inner tpl comp ctx).1 := by
  unfold uiV1AfterResolve
  cases hg : getTemplate env tpl with
  | none => exact StateOK.rfl' ctx
  | some p =>
      rcases hf : findComponentV1 ctx.rc.paletteComponentsV1 env tpl comp with
        ⟨found, reg'⟩
      cases found with
      | none => exact ⟨rfl, rfl, rfl⟩
      | some body =>
          dsimp only []
          refine ⟨?_, ?_, ?_⟩
          · rw [(scopedBodyRenderV1_shape rec hrec _ body reg' comp _ _ _).1]
          · rw [(scopedBodyRenderV1_shape rec hrec _ body reg' comp _ _ _).1]
          · rw [(scopedBodyRenderV1_shape rec hrec _ body reg' comp _ _ _).2]

/-- Every rendering step preserves the scope-stack shape (count and all
scopes below the top one) and the installed palette block context: the
paired push/pop and save/restore operations of both renderers balance on
the success and the failure path alike. -/
theorem render_StateOK (f : Nat) (env : TemplateEnv) :
    ∀ (t : Task) (c : Ctx), StateOK c (render f env t c).1 := by
  induction f with
  | zero => intro t c; exact StateOK.rfl' c
  | succ f ih =>
    intro t c
    match t with
    | .many [] => exact StateOK.rfl' c
    | .many (n :: rest) =>
        have h1 := ih (.one n) c
        rcases e1 : render f env (.one n) c with ⟨c1, r1⟩
        rw [e1] at h1
        have h2 := ih (.many rest) c1
        rcases e2 : render f env (.many rest) c1 with ⟨c2, r2⟩
        rw [e2] at h2
        rw [render_many_cons, e1]
        cases r1 with
        | error m => exact h1
        | ok s1 =>
            dsimp only []
            rw [e2]
            cases r2 with
            | error m => exact h1.trans' h2
            | ok s2 => exact h1.trans' h2
    | .one n =>
        cases n with
        | text s => exact StateOK.rfl' c
        | raiseNode m => exact StateOK.rfl' c
        | extendsMarker p => exact StateOK.rfl' c
        | overrideDecl nm b => exact StateOK.rfl' c
        | blockSuper =>
            rw [render_one_blockSuper]
            cases hv : ctxGet c "block" with
            | none => exact StateOK.rfl' c
            | some v =>
                cases v with
                | str s => exact StateOK.rfl' c
                | vnone => exact StateOK.rfl' c
                | vregistry r => exact StateOK.rfl' c
                | blockStr s => exact StateOK.rfl' c
                | blockHandle stack i =>
                    dsimp only []
                    by_cases hlt : i + 1 < stack.length
                    · rw [if_pos hlt]
                      dsimp only []
                      have hset := StateOK_ctxSet c "block"
                        (.blockHandle stack (i + 1))
                      rcases eb : render f env (.many (stack.getD (i + 1) []))
                          (ctxSet c "block" (.blockHandle stack (i + 1))) with
                        ⟨c2, r⟩
                      have hb2 := ih (.many (stack.getD (i + 1) []))
                        (ctxSet c "block" (.blockHandle stack (i + 1)))
                      rw [eb] at hb2
                      exact (hset.trans' hb2).trans' (StateOK_ctxSet _ _ _)
                    · rw [if_neg hlt]
                      exact StateOK.rfl' c
        | paletteBlock name body =>
            obtain ⟨sc, ⟨reg, pb, r1, ov, cc⟩, tn⟩ := c
            rw [render_one_paletteBlock]
            cases pb with
            | none => exact ih (.many body) _
            | some pbc =>
                dsimp only []
                cases hs : pbc.get_stack name with
                | nil => exact ih (.many body) _
                | cons top rest =>
                    dsimp only []
                    cases hprev : ctxGet ⟨sc, ⟨reg, some pbc, r1, ov, cc⟩, tn⟩ "block" with
                    | none =>
                        have hset := StateOK_ctxSet
                          ⟨sc, ⟨reg, some pbc, r1, ov, cc⟩, tn⟩ "block"
                          (.blockHandle (top :: rest) 0)
                        rcases eb : render f env (.many top)
                            (ctxSet ⟨sc, ⟨reg, some pbc, r1, ov, cc⟩, tn⟩ "block"
                              (.blockHandle (top :: rest) 0)) with ⟨c2, r⟩
                        have hb := ih (.many top)
                          (ctxSet ⟨sc, ⟨reg, some pbc, r1, ov, cc⟩, tn⟩ "block"
                            (.blockHandle (top :: rest) 0))
                        rw [eb] at hb
                        exact (hset.trans' hb).trans' (StateOK_ctxDel _ _)
                    | some pv =>
                        have hset := StateOK_ctxSet
                          ⟨sc, ⟨reg, some pbc, r1, ov, cc⟩, tn⟩ "block"
                          (.blockHandle (top :: rest) 0)
                        rcases eb : render f env (.many top)
                            (ctxSet ⟨sc, ⟨reg, some pbc, r1, ov, cc⟩, tn⟩ "block"
                              (.blockHandle (top :: rest) 0)) with ⟨c2, r⟩
                        have hb := ih (.many top)
                          (ctxSet ⟨sc, ⟨reg, some pbc, r1, ov, cc⟩, tn⟩ "block"
                            (.blockHandle (top :: rest) 0))
                        rw [eb] at hb
                        exact (hset.trans' hb).trans' (StateOK_ctxSet _ _ _)
        | componentDef name body =>
            exact StateOK.trans' ⟨rfl, rfl, rfl⟩ (StateOK_ctxSet _ _ _)
        | componentDefV1 fk name body =>
            have hb2 := ih (.many body)
              (ctxSet
                { c with rc := { c.rc with paletteComponentsV1 := registerReg c.rc.paletteComponentsV1 fk name body } }
                "PALETTE_COMPONENTS"
                (.vregistry (registerReg c.rc.paletteComponentsV1 fk name body)))
            have hmid : StateOK c
                { c with rc := { c.rc with paletteComponentsV1 := registerReg c.rc.paletteComponentsV1 fk name body } } :=
              ⟨rfl, rfl, rfl⟩
            exact StateOK.trans' (StateOK.trans' hmid
              (StateOK_ctxSet _ "PALETTE_COMPONENTS" _)) hb2
        | paletteBlockV1 name body =>
            rcases eb : render f env (.many body) c with ⟨c1, r1⟩
            have h1 := ih (.many body) c
            rw [eb] at h1
            rw [render.eq_def]
            dsimp only []
            rw [eb]
            cases r1 with
            | error m => exact h1
            | ok original =>
                dsimp only []
                cases hov : lookupA
                    (match c1.rc.palette_overrides with
                     | none => []
                     | some l => l) name with
                | none => exact h1
                | some ovBody => exact h1
        | paletteUI ft comp wv inner => exact ih (.ui ft comp wv inner) c
        | paletteUIV1 ft ctk props inner => exact ih (.uiV1 ft ctk props inner) c
    | .ui ft comp wv inner =>
        cases ft with
        | litTok s =>
            exact uiLookupAndRender_StateOK (render f env) (fun t c => ih t c)
              env comp (resolvePropsV2 wv c) inner (some s) c
        | exprTok e =>
            rw [render.eq_def]
            dsimp only []
            cases he : resolveFilterExpr e c with
            | error m => exact StateOK.rfl' c
            | ok v =>
                cases v with
                | str s =>
                    exact uiLookupAndRender_StateOK (render f env)
                      (fun t c => ih t c) env comp (resolvePropsV2 wv c) inner
                      (some s) c
                | vnone =>
                    exact uiLookupAndRender_StateOK (render f env)
                      (fun t c => ih t c) env comp (resolvePropsV2 wv c) inner
                      none c
                | blockHandle stack i =>
                    exact uiLookupAndRender_StateOK (render f env)
                      (fun t c => ih t c) env comp (resolvePropsV2 wv c) inner
                      none c
                | blockStr s =>
                    exact uiLookupAndRender_StateOK (render f env)
                      (fun t c => ih t c) env comp (resolvePropsV2 wv c) inner
                      none c
                | vregistry r =>
                    exact uiLookupAndRender_StateOK (render f env)
                      (fun t c => ih t c) env comp (resolvePropsV2 wv c) inner
                      none c
    | .uiV1 ft ctk props inner =>
        rw [render.eq_def]
        dsimp only []
        by_cases hb : (falsyName (resolveTokenV1 ft c) ||
            falsyName (resolveTokenV1 ctk c)) = true
        · rw [if_pos hb]
          exact StateOK.rfl' c
        · rw [if_neg hb]
          exact uiV1AfterResolve_StateOK (render f env) (fun t c => ih t c)
            env props inner _ _ c

/-- C4 (amended): on exit from a component invocation — success or failure
alike — the renderer pops the variable scope it pushed (the scope count and
every scope below the top are exactly as before) and restores the
block-override context to the snapshot taken before the invocation; the
component registry, however, is a persistent cache and may retain
components discovered during the invocation.  Rendering X, which itself
invokes Y, restores that state, and invoking X twice in sequence yields
identical output both times. -/
theorem C4_scope_and_override_restore :
    (∀ (f : Nat) (env : TemplateEnv) (ft : TokOrExpr) (comp : String)
        (wv : List (String × FilterExpr)) (inner : List PNode) (ctx : Ctx),
      (render f env (.one (.paletteUI ft comp wv inner)) ctx).1.rc.palette_block_context =
        ctx.rc.palette_block_context ∧
      (render f env (.one (.paletteUI ft comp wv inner)) ctx).1.scopes.length =
        ctx.scopes.length ∧
      (render f env (.one (.paletteUI ft comp wv inner)) ctx).1.scopes.tail =
        ctx.scopes.tail) ∧
    ((render 30 envXY (.ui (.litTok "x.html") "X" [] []) sampleCtx).2 =
      (render 30 envXY (.ui (.litTok "x.html") "X" [] [])
        (render 30 envXY (.ui (.litTok "x.html") "X" [] []) sampleCtx).1).2 ∧
     (render 30 envXY (.ui (.litTok "x.html") "X" [] []) sampleCtx).2 =
       .ok "[y]") := by
  constructor
  · intro f env ft comp wv inner ctx
    have h := render_StateOK f env (.one (.paletteUI ft comp wv inner)) ctx
    exact ⟨h.2.2, h.1, h.2.1⟩
  · exact ⟨rfl, rfl⟩

/-- The v1 scoped-render tail always returns normally: the body render is
wrapped in except Exception, which converts any raised error into the
inline render-error diagnostic. -/
theorem scopedBodyRenderV1_ok
    (rec : Task → Ctx → Ctx × Except String String)
    (lv : List (String × Value)) (body : List PNode) (reg' : Registry)
    (comp : String) (prevOv : Option (List (String × List PNode)))
    (prevComp : Option String) (c1 : Ctx) :
    ∃ s, (scopedBodyRenderV1 rec lv body reg' comp prevOv prevComp c1).2 =
      .ok s := by
  unfold scopedBodyRenderV1
  rcases e6 : rec (.many body)
      (ctxSet (ctxSet (lv.foldl (fun a kv => ctxSet a kv.1 kv.2) (ctxPush c1))
        "PALETTE_COMPONENTS" (.vregistry reg')) "component_name" (.str comp))
      with ⟨c6, rbody⟩
  dsimp only []
  rw [e6]
  cases rbody with
  | ok s => exact ⟨s, rfl⟩
  | error m => exact ⟨_, rfl⟩

/-- Every branch of palette.py's post-resolution pipeline returns a string:
load failure, lookup failure and body-render failure all produce inline
diagnostics. -/
theorem uiV1AfterResolve_ok
    (rec : Task → Ctx → Ctx × Except String String) (env : TemplateEnv)
    (props : List (String × PropSpec)) (inner : List PNode)
    (tpl comp : String) (ctx : Ctx) :
    ∃ s, (uiV1AfterResolve rec env props inner tpl comp ctx).2 = .ok s := by
  unfold uiV1AfterResolve
  cases hg : getTemplate env tpl with
  | none => exact ⟨_, rfl⟩
  | some p =>
      rcases hf : findComponentV1 ctx.rc.paletteComponentsV1 env tpl comp with
        ⟨found, reg'⟩
      cases found with
      | none => exact ⟨_, rfl⟩
      | some body =>
          dsimp only []
          exact scopedBodyRenderV1_ok rec _ body reg' comp _ _ _

/-- C5 (amended): palette.py's renderer never raises past its boundary —
for every invocation its output is a normally returned string, a failure
while rendering the component body included (it becomes an inline
render-error diagnostic).  palette_v2's renderer converts file-resolution
failures (and load and lookup failures) into diagnostic comment strings,
but an exception raised while rendering the component body itself
propagates to the caller after the state is restored. -/
theorem C5_error_conversion :
    (∀ (f : Nat) (env : TemplateEnv) (ft ctk : TokOrExpr)
        (props : List (String × PropSpec)) (inner : List PNode) (ctx : Ctx),
      ∃ s, (render (f + 1) env (.uiV1 ft ctk props inner) ctx).2 = .ok s) ∧
    (∀ (f : Nat) (env : TemplateEnv) (m comp : String)
        (wv : List (String × FilterExpr)) (inner : List PNode) (ctx : Ctx),
      (render (f + 1) env (.ui (.exprTok (.failing m)) comp wv inner) ctx).2 =
        .ok ("<!-- palette_ui error resolving file: " ++ m ++ " -->")) := by
  constructor
  · intro f env ft ctk props inner ctx
    rw [render.eq_def]
    dsimp only []
    by_cases hb : (falsyName (resolveTokenV1 ft ctx) ||
        falsyName (resolveTokenV1 ctk ctx)) = true
    · rw [if_pos hb]
      exact ⟨_, rfl⟩
    · rw [if_neg hb]
      exact uiV1AfterResolve_ok (render f env) env props inner _ _ ctx
  · intro f env m comp wv inner ctx
    rfl

/-- C5 counterexample: in palette_v2, a failure raised while rendering the
component body during the scoped-rendering step propagates to the caller
instead of being converted into an inline diagnostic string. -/
theorem C5_body_error_propagates :
    (render 20 envBoom (.ui (.litTok "t.html") "C" [] []) sampleCtx).2 =
      .error "boom" := rfl

/-- C7: when the component reference exhausts all four lookup strategies
without a match, the renderer returns normally with a clearly marked
comment-style diagnostic naming the component and template, so one missing
component cannot abort the enclosing page render. -/
theorem C7_missing_component_diagnostic (f : Nat) (env : TemplateEnv)
    (tpl comp : String) (wv : List (String × FilterExpr))
    (inner : List PNode) (ctx : Ctx) (reg' : Registry)
    (hfind : findComponentV2 ctx.rc.palette_registry env (some tpl) comp =
      .ok (none, reg')) :
    (render (f + 1) env (.ui (.litTok tpl) comp wv inner) ctx).2 =
      .ok ("<!-- palette_ui: component '" ++ comp ++
        "' not found in template '" ++ tpl ++ "' -->") := by
  rw [render.eq_def]
  dsimp only []
  unfold uiLookupAndRender
  rw [hfind]
  rfl

/-- C7 witness: looking up a component absent from an existing template
exhausts the four strategies and yields the marked diagnostic. -/
theorem C7_witness :
    findComponentV2 sampleCtx.rc.palette_registry envCard (some "card.html")
      "nope" = .ok (none, []) ∧
    (render 20 envCard (.ui (.litTok "card.html") "nope" [] []) sampleCtx).2 =
      .ok "<!-- palette_ui: component 'nope' not found in template 'card.html' -->" ∧
    ("<!--".data.isPrefixOf
      "<!-- palette_ui: component 'nope' not found in template 'card.html' -->".data) = true :=
  ⟨rfl,
   C7_missing_component_diagnostic 19 envCard "card.html" "nope" [] []
     sampleCtx [] rfl,
   by decide⟩

theorem lookupA_append_self {α : Type} (l : List (String × α)) (k : String)
    (v : α) (h : lookupA l k = none) : lookupA (l ++ [(k, v)]) k = some v := by
  induction l with
  | nil => simp [lookupA]
  | cons p rest ih =>
      obtain ⟨k', v'⟩ := p
      by_cases hk : k' = k
      · simp [lookupA, hk] at h
      · simp [lookupA, hk] at h ⊢
        exact ih h

theorem lookupReg_registerReg (reg : Registry) (tpl comp : String)
    (b : List PNode) : lookupReg (registerReg reg tpl comp b) tpl comp = some b := by
  unfold registerReg lookupReg
  cases hl : lookupA reg tpl with
  | none =>
      rw [lookupA_append_self reg tpl [(comp, b)] hl]
      simp [lookupA]
  | some comps =>
      rw [lookupA_insertA_self]
      exact lookupA_insertA_self comps comp b

/-- C6 (amended): palette.py's _find_component_in_registry tries the four
strategies in order, each only when the previous found nothing, and a
component discovered by the strategy-4 structural scan is registered under
the requested identity, so that future lookups find it by strategy 1.
(palette_v2's inline lookup diverges: a template-load failure during
strategy 2 aborts the lookup with a cannot-load diagnostic instead of
falling through to strategies 3 and 4 — see the counterexample.) -/
theorem C6_lookup_strategies (reg : Registry) (env : TemplateEnv)
    (tpl comp : String) :
    (∀ b, strat1 reg tpl comp = some b →
      findComponentV1 reg env tpl comp = (some b, reg)) ∧
    (∀ b, strat1 reg tpl comp = none → strat2 reg env tpl comp = some b →
      findComponentV1 reg env tpl comp = (some b, reg)) ∧
    (∀ b, strat1 reg tpl comp = none → strat2 reg env tpl comp = none →
      strat3 reg tpl comp = some b →
      findComponentV1 reg env tpl comp = (some b, reg)) ∧
    (∀ b, strat1 reg tpl comp = none → strat2 reg env tpl comp = none →
      strat3 reg tpl comp = none → strat4Scan env tpl comp = some b →
      findComponentV1 reg env tpl comp = (some b, registerReg reg tpl comp b) ∧
      strat1 (registerReg reg tpl comp b) tpl comp = some b ∧
      findComponentV1 (registerReg reg tpl comp b) env tpl comp =
        (some b, registerReg reg tpl comp b)) := by
  refine ⟨?_, ?_, ?_, ?_⟩
  · intro b h1
    unfold findComponentV1
    rw [h1]
  · intro b h1 h2
    unfold findComponentV1
    rw [h1, h2]
  · intro b h1 h2 h3
    unfold findComponentV1
    rw [h1, h2, h3]
  · intro b h1 h2 h3 h4
    have hreg : strat1 (registerReg reg tpl comp b) tpl comp = some b :=
      lookupReg_registerReg reg tpl comp b
    refine ⟨?_, hreg, ?_⟩
    · unfold findComponentV1
      rw [h1, h2, h3, h4]
    · unfold findComponentV1
      rw [hreg]

/-- C6 witness: with an empty registry, looking up the card component of a
palette.py template runs strategies 1-3 without a hit, discovers the
component by strategy 4, registers it, and a second lookup then succeeds by
strategy 1 without growing the registry further. -/
theorem C6_witness :
    findComponentV1 [] envCardV1 "card.html" "card" =
      (some cardV1Body, registerReg [] "card.html" "card" cardV1Body) ∧
    strat1 (registerReg [] "card.html" "card" cardV1Body) "card.html" "card" =
      some cardV1Body ∧
    findComponentV1 (registerReg [] "card.html" "card" cardV1Body) envCardV1
      "card.html" "card" =
      (some cardV1Body, registerReg [] "card.html" "card" cardV1Body) :=
  (C6_lookup_strategies [] envCardV1 "card.html" "card").2.2.2 cardV1Body
    rfl rfl rfl rfl

/-- C6 counterexample: in palette_v2's inline lookup, a template-load
failure during strategy 2 returns the cannot-load diagnostic without trying
strategy 3, even though the filename-only match (strategy 3) would have
found the component among the registered identities. -/
theorem C6_v2_load_failure_skips_basename :
    findComponentV2 regBase [] (some "pages/card.html") "card" =
      .error "<!-- palette_ui: cannot load template 'pages/card.html': pages/card.html -->" ∧
    strat3 regBase "pages/card.html" "card" = some [ .text "c" ] ∧
    (render 20 [] (.ui (.litTok "pages/card.html") "card" [] []) regBaseCtx).2 =
      .ok "<!-- palette_ui: cannot load template 'pages/card.html': pages/card.html -->" :=
  ⟨rfl, rfl, rfl⟩

/-- C8 (amended): in palette.py both identifiers may be literals or
deferred expressions and both are resolved against the caller's context: an
empty file name or a component expression that fails to resolve produces
the comment-style diagnostic without raising, and a component expression
resolving to a string behaves exactly as the corresponding literal.  In
palette_v2 the file identifier is likewise resolved (a resolution failure
produces the resolving-file diagnostic), but an unquoted component token is
used verbatim without resolution — see the counterexample. -/
theorem C8_reference_resolution :
    (∀ (f : Nat) (env : TemplateEnv) (ctk : TokOrExpr)
        (props : List (String × PropSpec)) (inner : List PNode) (ctx : Ctx),
      (render (f + 1) env (.uiV1 (.litTok "") ctk props inner) ctx).2 =
        .ok ("<!-- palette_ui: file='" ++ "" ++ "' component='" ++
          disp (resolveTokenV1 ctk ctx) ++ "' -->")) ∧
    (∀ (f : Nat) (env : TemplateEnv) (ft : TokOrExpr) (m : String)
        (props : List (String × PropSpec)) (inner : List PNode) (ctx : Ctx),
      (render (f + 1) env (.uiV1 ft (.exprTok (.failing m)) props inner) ctx).2 =
        .ok ("<!-- palette_ui: file='" ++ disp (resolveTokenV1 ft ctx) ++
          "' component='" ++ "None" ++ "' -->")) ∧
    (∀ (f : Nat) (env : TemplateEnv) (ft : TokOrExpr) (p s : String)
        (props : List (String × PropSpec)) (inner : List PNode) (ctx : Ctx),
      ctxGet ctx p = some (.str s) →
      render (f + 1) env (.uiV1 ft (.exprTok (.var p)) props inner) ctx =
        render (f + 1) env (.uiV1 ft (.litTok s) props inner) ctx) ∧
    (∀ (f : Nat) (env : TemplateEnv) (m comp : String)
        (wv : List (String × FilterExpr)) (inner : List PNode) (ctx : Ctx),
      (render (f + 1) env (.ui (.exprTok (.failing m)) comp wv inner) ctx).2 =
        .ok ("<!-- palette_ui error resolving file: " ++ m ++ " -->")) := by
  refine ⟨?_, ?_, ?_, ?_⟩
  · intro f env ctk props inner ctx
    rfl
  · intro f env ft m props inner ctx
    rw [render.eq_def]
    dsimp only []
    rw [if_pos (by simp [resolveTokenV1, resolveFilterExpr, falsyName])]
    rfl
  · intro f env ft p s props inner ctx h
    have hres : resolveTokenV1 (.exprTok (.var p)) ctx = some s := by
      simp [resolveTokenV1, resolveFilterExpr, h]
    rw [render.eq_def, render.eq_def]
    dsimp only []
    rw [hres]
    rfl
  · intro f env m comp wv inner ctx
    rfl

/-- C8 witness: resolving the component expression myvar in a context that
binds it to card renders exactly like the literal card. -/
theorem C8_witness :
    ctxGet myvarCtx "myvar" = some (.str "card") ∧
    render 8 envCardV1 (.uiV1 (.litTok "card.html") (.exprTok (.var "myvar"))
        [] []) myvarCtx =
      render 8 envCardV1 (.uiV1 (.litTok "card.html") (.litTok "card") [] [])
        myvarCtx :=
  ⟨rfl,
   (C8_reference_resolution).2.2.1 7 envCardV1 (.litTok "card.html") "myvar"
     "card" [] [] myvarCtx rfl⟩

/-- C8 counterexample: in palette_v2 an unquoted component token is stored
verbatim by the parser and used as the component name without resolution,
so with myvar bound to card in the caller's context the invocation reports
component myvar as not found, although the invocation with the resolved
name card renders the component. -/
theorem C8_v2_component_not_resolved :
    componentTokenV2 "myvar" = "myvar" ∧
    ctxGet myvarCtx "myvar" = some (.str "card") ∧
    (render 20 envCard
        (.ui (.litTok "card.html") (componentTokenV2 "myvar") [] []) myvarCtx).2 =
      .ok "<!-- palette_ui: component 'myvar' not found in template 'card.html' -->" ∧
    (render 20 envCard (.ui (.litTok "card.html") "card" [] []) myvarCtx).2 =
      .ok "Untitled" :=
  ⟨rfl, rfl, rfl, rfl⟩

/-- C9: property resolution is per kind — a literal property resolves to
the literal value, an expression property to the result of evaluating it
against the caller's context at the moment of invocation — and a failure
resolving one property does not abort the others: that one property becomes
None and every other property resolves exactly as it would alone, in both
renderers. -/
theorem C9_prop_resolution :
    (∀ (ctx : Ctx) (pre post : List (String × FilterExpr)) (k m : String),
      resolvePropsV2 (pre ++ (k, .failing m) :: post) ctx =
        resolvePropsV2 pre ctx ++ (k, .vnone) :: resolvePropsV2 post ctx) ∧
    (∀ (ctx : Ctx) (k s : String) (rest : List (String × FilterExpr)),
      resolvePropsV2 ((k, .lit s) :: rest) ctx =
        (k, .str s) :: resolvePropsV2 rest ctx) ∧
    (∀ (ctx : Ctx) (k p : String) (rest : List (String × FilterExpr)) (v : Value),
      ctxGet ctx p = some v →
      resolvePropsV2 ((k, .var p) :: rest) ctx =
        (k, v) :: resolvePropsV2 rest ctx) ∧
    (∀ (ctx : Ctx) (pre post : List (String × PropSpec)) (k m : String),
      resolvePropsV1 (pre ++ (k, .expr (.failing m)) :: post) ctx =
        resolvePropsV1 pre ctx ++ (k, .vnone) :: resolvePropsV1 post ctx) ∧
    (∀ (ctx : Ctx) (k s : String) (rest : List (String × PropSpec)),
      resolvePropsV1 ((k, .lit s) :: rest) ctx =
        (k, .str s) :: resolvePropsV1 rest ctx) ∧
    (∀ (ctx : Ctx) (k p : String) (rest : List (String × PropSpec)) (v : Value),
      ctxGet ctx p = some v →
      resolvePropsV1 ((k, .expr (.var p)) :: rest) ctx =
        (k, v) :: resolvePropsV1 rest ctx) := by
  refine ⟨?_, ?_, ?_, ?_, ?_, ?_⟩
  · intro ctx pre post k m
    induction pre with
    | nil => rfl
    | cons kv rest ih =>
        obtain ⟨k', e'⟩ := kv
        simp only [List.cons_append, resolvePropsV2]
        exact congrArg (List.cons _) ih
  · intro ctx k s rest
    rfl
  · intro ctx k p rest v h
    simp [resolvePropsV2, resolveFilterExpr, h]
  · intro ctx pre post k m
    induction pre with
    | nil => rfl
    | cons kv rest ih =>
        obtain ⟨k', e'⟩ := kv
        simp only [List.cons_append, resolvePropsV1]
        exact congrArg (List.cons _) ih
  · intro ctx k s rest
    rfl
  · intro ctx k p rest v h
    simp [resolvePropsV1, resolveFilterExpr, h]

/-- C9 witness: a failing property surrounded by a literal and an
expression property resolves to None while the others resolve normally. -/
theorem C9_witness :
    ctxGet myvarCtx "myvar" = some (.str "card") ∧
    resolvePropsV2 [("title", .var "myvar")] myvarCtx =
      [("title", .str "card")] ∧
    resolvePropsV2 [("a", .lit "x"), ("b", .failing "boom"), ("c", .var "myvar")]
        myvarCtx =
      [("a", .str "x"), ("b", .vnone), ("c", .str "card")] :=
  ⟨rfl,
   C9_prop_resolution.2.2.1 myvarCtx "title" "myvar" [] (.str "card") rfl,
   C9_prop_resolution.1 myvarCtx [("a", .lit "x")] [("c", .var "myvar")] "b"
     "boom" |>.trans (by rfl)⟩

/-- C4 counterexample: the render-scoped registry is not restored to the
snapshot taken before the invocation — after invoking X (discovered on
demand by lookup strategy 4), the registry retains the registration, so the
state on exit differs from the state on entry. -/
theorem C4_registry_not_restored :
    (lookupReg
      (render 30 envXY (.ui (.litTok "x.html") "X" [] []) sampleCtx).1.rc.palette_registry
      "x.html" "X").isSome = true ∧
    (lookupReg sampleCtx.rc.palette_registry "x.html" "X").isSome = false :=
  ⟨rfl, rfl⟩

end Palette
